import Mathlib

/-!
Shallow embedding of the edge-service MQTT/RFID core (Python backend) and
proofs about its specification.  The definitions translate, function by
function, the code in `backend/services/epc_decoder.py`,
`backend/services/decision.py`, `backend/database.py` and
`backend/mqtt_client.py`.  Times are modelled as integers (milliseconds for
the engine clock, seconds for the store clock); SQLite tables are modelled
as lists of rows, and the connection-wide `total_changes` counter of the
sqlite3 connection is modelled explicitly because two functions return it.
-/

namespace EdgeService

/-! ## EPC codec (`backend/services/epc_decoder.py`) -/

/-- Reverse mapping of `EPC_TO_LETTER`: EPC hex pairs to letters A-Z. -/
def epcToLetter (c1 c2 : Char) : Option Char :=
  match c1, c2 with
  | 'A', '0' => some 'A'
  | 'B', '0' => some 'B'
  | 'C', '0' => some 'C'
  | 'D', '0' => some 'D'
  | 'E', '0' => some 'E'
  | 'F', '0' => some 'F'
  | 'A', '1' => some 'G'
  | 'B', '1' => some 'H'
  | 'C', '1' => some 'I'
  | 'D', '1' => some 'J'
  | 'E', '1' => some 'K'
  | 'F', '1' => some 'L'
  | 'A', '2' => some 'M'
  | 'B', '2' => some 'N'
  | 'C', '2' => some 'O'
  | 'D', '2' => some 'P'
  | 'E', '2' => some 'Q'
  | 'F', '2' => some 'R'
  | 'A', '3' => some 'S'
  | 'B', '3' => some 'T'
  | 'C', '3' => some 'U'
  | 'D', '3' => some 'V'
  | 'E', '3' => some 'W'
  | 'F', '3' => some 'X'
  | 'A', '4' => some 'Y'
  | 'B', '4' => some 'Z'
  | _, _ => none

/-- Strip the trailing run of `F` characters (`re.sub(r"F+$", "", epc)`). -/
def stripTrailingF (l : List Char) : List Char :=
  (l.reverse.dropWhile (fun c => c = 'F')).reverse

/-- The scanning loop of `decode_epc`: at each position try the
two-character table first, otherwise emit the character verbatim. -/
def scanPairs : List Char → List Char
  | [] => []
  | [c] => [c]
  | c1 :: c2 :: rest =>
    match epcToLetter c1 c2 with
    | some l => l :: scanPairs rest
    | none => c1 :: scanPairs (c2 :: rest)

/-- Model of `decode_epc`: uppercase (ASCII), strip trailing `F` padding,
then scan.  The two early returns for empty input in the Python code both
coincide with the scan of the empty list. -/
def decode_epc (epc : String) : String :=
  ⟨scanPairs (stripTrailingF (epc.data.map Char.toUpper))⟩

/-- The scan leaves a character list unchanged iff no adjacent pair is a
table key; this boolean checks that side condition. -/
def noKeyPair : List Char → Bool
  | c1 :: c2 :: rest => (epcToLetter c1 c2).isNone && noKeyPair (c2 :: rest)
  | _ => true

theorem scanPairs_fixed : ∀ l : List Char, noKeyPair l = true → scanPairs l = l
  | [], _ => rfl
  | [_], _ => rfl
  | c1 :: c2 :: rest, h => by
    have h' := h
    simp only [noKeyPair, Bool.and_eq_true, Option.isNone_iff_eq_none] at h'
    simp only [scanPairs, h'.1]
    exact congrArg (c1 :: ·) (scanPairs_fixed (c2 :: rest) h'.2)

/-- A string already in canonical form (ASCII-uppercase, no trailing `F`,
no adjacent table pair) is a fixed point of `decode_epc`. -/
theorem decode_epc_fixed (s : String)
    (h1 : s.data.map Char.toUpper = s.data)
    (h2 : stripTrailingF s.data = s.data)
    (h3 : noKeyPair s.data = true) :
    decode_epc s = s := by
  unfold decode_epc
  rw [h1, h2, scanPairs_fixed s.data h3]

example : decode_epc "A0B0C01234FFFFFFFFFF" = "ABC1234" := by decide
example : decode_epc "B3E0A3B3123" = "TEST123" := by decide
example : decode_epc "F0F0" = "FF" := by decide
example : decode_epc "FF" = "" := by decide

/-! ## Data model (`backend/models.py`) -/

/-- The `TagState` enum: possible states for a registered QR code. -/
inductive TagSt
  | IN_CART
  | PAID
deriving DecidableEq, Repr

/-- The `Decision` enum: gate decision outcomes. -/
inductive Decision
  | PASS
  | ALARM
deriving DecidableEq, Repr

/-! ## State store (`backend/database.py`)

The SQLite table `tag_state` (primary key `qr_code`) is a list of rows,
`alarm_event` an append-only list; `total_changes` models the sqlite3
connection attribute of the same name, which counts every row inserted,
updated or deleted since the connection was opened. -/

/-- One row of the `tag_state` table. -/
structure TagRow where
  qr_code : String
  state : TagSt
  order_id : String
  pos_id : String
  store_id : String
  updated_at : Int
  expires_at : Int
deriving DecidableEq, Repr

/-- One row of the `alarm_event` table (the auto-increment id is the row's
position; `rssi` is stored as an integer stand-in for the REAL column). -/
structure AlarmEventRow where
  gate_id : String
  epc : String
  qr_code : Option String
  rssi : Option Int
  antenna : Option Int
  created_at : Int
deriving DecidableEq, Repr

/-- The open database connection: both tables plus the connection-wide
`total_changes` counter. -/
structure Conn where
  tag_state : List TagRow
  alarm_event : List AlarmEventRow
  total_changes : Nat
deriving DecidableEq, Repr

/-- Model of `get_qr_state`: `SELECT * FROM tag_state WHERE qr_code = ?
AND expires_at >= ?` followed by `fetchone` (first matching row in scan
order). -/
def get_qr_state (conn : Conn) (now : Int) (qr : String) : Option TagRow :=
  conn.tag_state.find? (fun r => r.qr_code == qr && decide (now ≤ r.expires_at))

/-- Model of one execution of the upsert statement `INSERT ... ON
CONFLICT(qr_code) DO UPDATE SET ... WHERE <guard on the existing row>`:
insert if no row has the key, otherwise update the (unique) conflicting
row in place when the guard accepts it.  Returns the new table and the
number of rows changed (0 or 1), which feeds `total_changes`. -/
def upsertRow (rows : List TagRow) (nr : TagRow) (guard : TagRow → Bool) :
    List TagRow × Nat :=
  match rows with
  | [] => ([nr], 1)
  | r :: rest =>
    if r.qr_code == nr.qr_code then
      if guard r then (nr :: rest, 1) else (r :: rest, 0)
    else
      let p := upsertRow rest nr guard
      (r :: p.1, p.2)

/-- The `WHERE state != 'PAID'` guard of the IN_CART upsert, evaluated on
the existing row. -/
def inCartGuard (r : TagRow) : Bool := !(r.state == TagSt.PAID)

/-- Loop body of `upsert_qr_codes_in_cart`: `now` is computed once before
the loop, every qr first goes through the Python-level `get_qr_state`
check (expiry-aware), and otherwise through the guarded SQL upsert;
`upserted` is incremented whenever the statement is executed, regardless
of whether it changed a row. -/
def upsertInCartGo (order_id pos_id store_id : String) (now expires_at : Int) :
    Conn → List String → Nat → Nat → Conn × Nat × Nat
  | conn, [], upserted, ignored_paid => (conn, upserted, ignored_paid)
  | conn, qr :: rest, upserted, ignored_paid =>
    let existingPaid :=
      match get_qr_state conn now qr with
      | some row => row.state == TagSt.PAID
      | none => false
    if existingPaid then
      upsertInCartGo order_id pos_id store_id now expires_at conn rest upserted (ignored_paid + 1)
    else
      let p := upsertRow conn.tag_state
        ⟨qr, TagSt.IN_CART, order_id, pos_id, store_id, now, expires_at⟩ inCartGuard
      upsertInCartGo order_id pos_id store_id now expires_at
        { conn with tag_state := p.1, total_changes := conn.total_changes + p.2 }
        rest (upserted + 1) ignored_paid

/-- Model of `upsert_qr_codes_in_cart`; result is
`(connection, upserted, ignored_paid)`. -/
def upsert_qr_codes_in_cart (conn : Conn) (qr_codes : List String)
    (order_id pos_id store_id : String) (now ttl_seconds : Int) :
    Conn × Nat × Nat :=
  upsertInCartGo order_id pos_id store_id now (now + ttl_seconds) conn qr_codes 0 0

/-- Loop body of `upsert_qr_codes_paid`: unconditional upsert. -/
def upsertPaidGo (order_id pos_id store_id : String) (now expires_at : Int) :
    Conn → List String → Conn
  | conn, [] => conn
  | conn, qr :: rest =>
    let p := upsertRow conn.tag_state
      ⟨qr, TagSt.PAID, order_id, pos_id, store_id, now, expires_at⟩ (fun _ => true)
    upsertPaidGo order_id pos_id store_id now expires_at
      { conn with tag_state := p.1, total_changes := conn.total_changes + p.2 } rest

/-- Model of `upsert_qr_codes_paid`; the function returns
`len(qr_codes)` verbatim. -/
def upsert_qr_codes_paid (conn : Conn) (qr_codes : List String)
    (order_id pos_id store_id : String) (now ttl_seconds : Int) : Conn × Nat :=
  (upsertPaidGo order_id pos_id store_id now (now + ttl_seconds) conn qr_codes,
   qr_codes.length)

/-- Model of `remove_qr_codes`: delete the matching rows, then return the
connection's `total_changes` attribute (exactly what the Python code
returns). -/
def remove_qr_codes (conn : Conn) (qr_codes : List String)
    (order_id : Option String) : Conn × Nat :=
  let gone : TagRow → Bool := fun r =>
    match order_id with
    | some oid => qr_codes.contains r.qr_code && r.order_id == oid
    | none => qr_codes.contains r.qr_code
  let kept := conn.tag_state.filter (fun r => !(gone r))
  let deleted := conn.tag_state.length - kept.length
  let conn' : Conn :=
    { conn with tag_state := kept, total_changes := conn.total_changes + deleted }
  (conn', conn'.total_changes)

/-- Model of `cleanup_expired_tags`: `DELETE FROM tag_state WHERE
expires_at < ?`, then return the connection's `total_changes`. -/
def cleanup_expired_tags (conn : Conn) (now : Int) : Conn × Nat :=
  let kept := conn.tag_state.filter (fun r => !(decide (r.expires_at < now)))
  let deleted := conn.tag_state.length - kept.length
  let conn' : Conn :=
    { conn with tag_state := kept, total_changes := conn.total_changes + deleted }
  (conn', conn'.total_changes)

/-- Model of `insert_alarm_event`: append one row to `alarm_event`. -/
def insert_alarm_event (conn : Conn) (now : Int) (gate_id epc : String)
    (qr_code : Option String) (rssi antenna : Option Int) : Conn :=
  { conn with
    alarm_event := conn.alarm_event ++ [⟨gate_id, epc, qr_code, rssi, antenna, now⟩],
    total_changes := conn.total_changes + 1 }

/-! ## Decision engine (`backend/services/decision.py`)

The engine's two dictionaries map EPC strings to millisecond timestamps,
with `dict.get(epc, 0)` lookups; they are modelled as association lists.
The Python code samples `time.time()` separately in each helper during
one `make_decision` call; the calls happen within the same decision, so
the model passes a single millisecond clock `now_ms` (and the
second-resolution clock `now_s` used by the database layer). -/

/-- Configuration slice `config.decision`. -/
structure DecisionConfig where
  pass_when_in_cart : Bool
  debounce_ms : Int
  alarm_cooldown_ms : Int
deriving DecidableEq, Repr

/-- Mutable engine state: `_last_seen` and `_last_alarm`. -/
structure EngineState where
  last_seen : List (String × Int)
  last_alarm : List (String × Int)
deriving DecidableEq, Repr

/-- Dictionary read with default 0, as in `self._last_seen.get(epc, 0)`. -/
def lookup0 (m : List (String × Int)) (k : String) : Int :=
  match m.find? (fun p => p.1 == k) with
  | some p => p.2
  | none => 0

/-- Dictionary write `m[k] = v`. -/
def setKey (m : List (String × Int)) (k : String) (v : Int) :
    List (String × Int) :=
  match m with
  | [] => [(k, v)]
  | p :: rest => if p.1 == k then (k, v) :: rest else p :: setKey rest k v

/-- Model of `DecisionEngine._should_debounce`: returns the verdict and the
engine state (updated only when the event is not debounced). -/
def should_debounce (cfg : DecisionConfig) (st : EngineState) (now_ms : Int)
    (epc : String) : Bool × EngineState :=
  if now_ms - lookup0 st.last_seen epc < cfg.debounce_ms then (true, st)
  else (false, { st with last_seen := setKey st.last_seen epc now_ms })

/-- Model of `DecisionEngine._is_in_alarm_cooldown`. -/
def is_in_alarm_cooldown (cfg : DecisionConfig) (st : EngineState)
    (now_ms : Int) (epc : String) : Bool :=
  decide (now_ms - lookup0 st.last_alarm epc < cfg.alarm_cooldown_ms)

/-- Model of `DecisionEngine._record_alarm`. -/
def record_alarm (st : EngineState) (now_ms : Int) (epc : String) :
    EngineState :=
  { st with last_alarm := setKey st.last_alarm epc now_ms }

/-- Observable side effects of the detection path, in program order:
an audit-log append (`insert_alarm_event`), a GPO pulse publish
(`trigger_alarm`), and the two WebSocket broadcasts. -/
inductive Action
  | audit_append (gate_id epc : String) (qr_code : Option String)
  | pulse_publish
  | broadcast_tag_detected (display_id : String) (decision : Decision)
  | broadcast_alarm_triggered (display_id gate_id : String)
deriving DecidableEq, Repr

/-- Result of one `make_decision` call: the returned triple, the engine
state and connection after the call, and the effect trace (the audit
append, when one happened). -/
structure DecideResult where
  decision : Decision
  reason : String
  qr : String
  st : EngineState
  conn : Conn
  acts : List Action
deriving DecidableEq, Repr

/-- Model of `DecisionEngine.make_decision`.  The Python fallback branch
for an unknown state string is unreachable here because `TagSt` has
exactly the two `TagState` enum members that the store ever writes. -/
def make_decision (cfg : DecisionConfig) (st : EngineState) (conn : Conn)
    (now_ms now_s : Int) (epc gate_id : String) (rssi antenna : Option Int) :
    DecideResult :=
  match should_debounce cfg st now_ms epc with
  | (true, st1) => ⟨.PASS, "debounced", "", st1, conn, []⟩
  | (false, st1) =>
    let qr := decode_epc epc
    match get_qr_state conn now_s qr with
    | none =>
      if is_in_alarm_cooldown cfg st1 now_ms epc then
        ⟨.PASS, "alarm_cooldown", qr, st1, conn, []⟩
      else
        ⟨.ALARM, "qr_not_found", qr, record_alarm st1 now_ms epc,
          insert_alarm_event conn now_s gate_id epc (some qr) rssi antenna,
          [.audit_append gate_id epc (some qr)]⟩
    | some row =>
      match row.state with
      | .PAID => ⟨.PASS, "paid", qr, st1, conn, []⟩
      | .IN_CART =>
        if cfg.pass_when_in_cart then
          ⟨.PASS, "in_cart_allowed", qr, st1, conn, []⟩
        else if is_in_alarm_cooldown cfg st1 now_ms epc then
          ⟨.PASS, "alarm_cooldown", qr, st1, conn, []⟩
        else
          ⟨.ALARM, "in_cart_not_allowed", qr, record_alarm st1 now_ms epc,
            insert_alarm_event conn now_s gate_id epc (some qr) rssi antenna,
            [.audit_append gate_id epc (some qr)]⟩

/-! ## MQTT detection handler (`backend/mqtt_client.py`)

JSON payloads are modelled by a small value type; the EPC, gate-id and
numeric fields the handler reads are strings and integers in practice, so
the field readers return those. -/

/-- A JSON value, as far as the handler inspects one. -/
inductive JVal
  | jstr (s : String)
  | jnum (n : Int)
  | jbool (b : Bool)
  | jnull
  | jarr (elems : List JVal)
  | jobj (fields : List (String × JVal))

/-- Dictionary read `payload.get(k)` (None when absent or not an object). -/
def jget (j : JVal) (k : String) : Option JVal :=
  match j with
  | .jobj fields => (fields.find? (fun p => p.1 == k)).map (fun p => p.2)
  | _ => none

/-- Read a string-valued field. -/
def jgetStr (j : JVal) (k : String) : Option String :=
  match jget j k with
  | some (.jstr s) => some s
  | _ => none

/-- Read a number-valued field. -/
def jgetNum (j : JVal) (k : String) : Option Int :=
  match jget j k with
  | some (.jnum n) => some n
  | _ => none

/-- The Python `a or b` on optional strings: the empty string is falsy. -/
def pyOrStr (a b : Option String) : Option String :=
  match a with
  | some s => if s == "" then b else some s
  | none => b

/-- The Python `a or b` on optional numbers: 0 is falsy. -/
def pyOrNum (a b : Option Int) : Option Int :=
  match a with
  | some n => if n == 0 then b else some n
  | none => b

/-- Truthiness of an optional string (`if not epc: return`). -/
def truthyStr (a : Option String) : Option String :=
  match a with
  | some s => if s == "" then none else some s
  | none => none

/-- EPC extraction in `_handle_tag_detection`:
`data = payload.get("data", payload)` then
`epc = data.get("idHex") or data.get("tag_id")`, dropped when falsy. -/
def extract_epc (payload : JVal) : Option String :=
  let data := (jget payload "data").getD payload
  truthyStr (pyOrStr (jgetStr data "idHex") (jgetStr data "tag_id"))

/-- Field read `data.get("peakRssi") or data.get("rssi")`. -/
def extract_rssi (payload : JVal) : Option Int :=
  let data := (jget payload "data").getD payload
  pyOrNum (jgetNum data "peakRssi") (jgetNum data "rssi")

/-- Field read `data.get("antenna")`. -/
def extract_antenna (payload : JVal) : Option Int :=
  let data := (jget payload "data").getD payload
  jgetNum data "antenna"

/-- Field read `payload.get("clientId") or get_config().gate.client_id`. -/
def extract_gate_id (payload : JVal) (config_client_id : String) : String :=
  (truthyStr (jgetStr payload "clientId")).getD config_client_id

/-- Engine state, connection and effect trace after one handler run. -/
structure HandleResult where
  st : EngineState
  conn : Conn
  acts : List Action
deriving DecidableEq, Repr

/-- Model of `MqttClient._handle_tag_detection`: extract one EPC (or drop
the whole message with a warning), call `make_decision`, suppress
broadcasts for `debounced`/`alarm_cooldown`, broadcast the detection, and
on ALARM also broadcast the alarm and publish the GPO pulse
(`trigger_alarm`). -/
def handle_tag_detection (cfg : DecisionConfig) (st : EngineState)
    (conn : Conn) (now_ms now_s : Int) (payload : JVal)
    (config_client_id : String) : HandleResult :=
  match extract_epc payload with
  | none => ⟨st, conn, []⟩
  | some epc =>
    let rssi := extract_rssi payload
    let antenna := extract_antenna payload
    let gate_id := extract_gate_id payload config_client_id
    let r := make_decision cfg st conn now_ms now_s epc gate_id rssi antenna
    if r.reason == "debounced" || r.reason == "alarm_cooldown" then
      ⟨r.st, r.conn, r.acts⟩
    else
      let display_id := if r.qr == "" then epc else r.qr
      let acts1 := r.acts ++ [.broadcast_tag_detected display_id r.decision]
      if r.decision == Decision.ALARM then
        ⟨r.st, r.conn,
          acts1 ++ [.broadcast_alarm_triggered display_id gate_id, .pulse_publish]⟩
      else
        ⟨r.st, r.conn, acts1⟩

/-- Whether every `p`-event in a trace is ordered strictly before every
`q`-event. -/
def eventsBefore (tr : List Action) (p q : Action → Bool) : Bool :=
  tr.enum.all (fun ia =>
    !(p ia.2) || tr.enum.all (fun jb => !(q jb.2) || decide (ia.1 < jb.1)))

/-- Recognisers for the three effect kinds of the alarm path. -/
def isAudit : Action → Bool
  | .audit_append _ _ _ => true
  | _ => false

def isPulse : Action → Bool
  | .pulse_publish => true
  | _ => false

def isBroadcast : Action → Bool
  | .broadcast_tag_detected _ _ => true
  | .broadcast_alarm_triggered _ _ => true
  | _ => false

/-! ## Branch lemmas for the decision engine -/

theorem lookup0_setKey_self (m : List (String × Int)) (k : String) (v : Int) :
    lookup0 (setKey m k v) k = v := by
  induction m with
  | nil => simp [setKey, lookup0, List.find?]
  | cons p rest ih =>
    by_cases h : p.1 == k
    · simp [setKey, h, lookup0, List.find?]
    · simp only [setKey, h, if_false, Bool.false_eq_true]
      simpa [lookup0, List.find?, h] using ih

theorem should_debounce_pos {cfg : DecisionConfig} {st : EngineState}
    {now_ms : Int} {epc : String}
    (h : now_ms - lookup0 st.last_seen epc < cfg.debounce_ms) :
    should_debounce cfg st now_ms epc = (true, st) := by
  unfold should_debounce
  rw [if_pos h]

theorem should_debounce_neg {cfg : DecisionConfig} {st : EngineState}
    {now_ms : Int} {epc : String}
    (h : ¬ now_ms - lookup0 st.last_seen epc < cfg.debounce_ms) :
    should_debounce cfg st now_ms epc =
      (false, { st with last_seen := setKey st.last_seen epc now_ms }) := by
  unfold should_debounce
  rw [if_neg h]

/-- Engine state after a non-debounced check, as written by
`_should_debounce`. -/
def stampSeen (st : EngineState) (now_ms : Int) (epc : String) : EngineState :=
  { st with last_seen := setKey st.last_seen epc now_ms }

theorem make_decision_debounced {cfg : DecisionConfig} {st : EngineState}
    {conn : Conn} {now_ms now_s : Int} {epc gate_id : String}
    {rssi antenna : Option Int}
    (h : now_ms - lookup0 st.last_seen epc < cfg.debounce_ms) :
    make_decision cfg st conn now_ms now_s epc gate_id rssi antenna =
      ⟨.PASS, "debounced", "", st, conn, []⟩ := by
  unfold make_decision
  rw [should_debounce_pos h]

theorem make_decision_none_cooldown {cfg : DecisionConfig} {st : EngineState}
    {conn : Conn} {now_ms now_s : Int} {epc gate_id : String}
    {rssi antenna : Option Int}
    (hnd : ¬ now_ms - lookup0 st.last_seen epc < cfg.debounce_ms)
    (hget : get_qr_state conn now_s (decode_epc epc) = none)
    (hcd : now_ms - lookup0 st.last_alarm epc < cfg.alarm_cooldown_ms) :
    make_decision cfg st conn now_ms now_s epc gate_id rssi antenna =
      ⟨.PASS, "alarm_cooldown", decode_epc epc, stampSeen st now_ms epc,
        conn, []⟩ := by
  unfold make_decision
  rw [should_debounce_neg hnd]
  simp only [hget, is_in_alarm_cooldown, stampSeen]
  simp [hcd]

theorem make_decision_none_fires {cfg : DecisionConfig} {st : EngineState}
    {conn : Conn} {now_ms now_s : Int} {epc gate_id : String}
    {rssi antenna : Option Int}
    (hnd : ¬ now_ms - lookup0 st.last_seen epc < cfg.debounce_ms)
    (hget : get_qr_state conn now_s (decode_epc epc) = none)
    (hcd : ¬ now_ms - lookup0 st.last_alarm epc < cfg.alarm_cooldown_ms) :
    make_decision cfg st conn now_ms now_s epc gate_id rssi antenna =
      ⟨.ALARM, "qr_not_found", decode_epc epc,
        record_alarm (stampSeen st now_ms epc) now_ms epc,
        insert_alarm_event conn now_s gate_id epc (some (decode_epc epc)) rssi antenna,
        [.audit_append gate_id epc (some (decode_epc epc))]⟩ := by
  unfold make_decision
  rw [should_debounce_neg hnd]
  simp only [hget, is_in_alarm_cooldown, stampSeen]
  simp [hcd]

theorem make_decision_paid {cfg : DecisionConfig} {st : EngineState}
    {conn : Conn} {now_ms now_s : Int} {epc gate_id : String}
    {rssi antenna : Option Int} {row : TagRow}
    (hnd : ¬ now_ms - lookup0 st.last_seen epc < cfg.debounce_ms)
    (hget : get_qr_state conn now_s (decode_epc epc) = some row)
    (hrow : row.state = TagSt.PAID) :
    make_decision cfg st conn now_ms now_s epc gate_id rssi antenna =
      ⟨.PASS, "paid", decode_epc epc, stampSeen st now_ms epc, conn, []⟩ := by
  unfold make_decision
  rw [should_debounce_neg hnd]
  simp only [hget, hrow, stampSeen]

theorem make_decision_in_cart_allowed {cfg : DecisionConfig} {st : EngineState}
    {conn : Conn} {now_ms now_s : Int} {epc gate_id : String}
    {rssi antenna : Option Int} {row : TagRow}
    (hnd : ¬ now_ms - lookup0 st.last_seen epc < cfg.debounce_ms)
    (hget : get_qr_state conn now_s (decode_epc epc) = some row)
    (hrow : row.state = TagSt.IN_CART)
    (hcfg : cfg.pass_when_in_cart = true) :
    make_decision cfg st conn now_ms now_s epc gate_id rssi antenna =
      ⟨.PASS, "in_cart_allowed", decode_epc epc, stampSeen st now_ms epc,
        conn, []⟩ := by
  unfold make_decision
  rw [should_debounce_neg hnd]
  simp only [hget, hrow, stampSeen]
  simp [hcfg]

theorem make_decision_in_cart_cooldown {cfg : DecisionConfig} {st : EngineState}
    {conn : Conn} {now_ms now_s : Int} {epc gate_id : String}
    {rssi antenna : Option Int} {row : TagRow}
    (hnd : ¬ now_ms - lookup0 st.last_seen epc < cfg.debounce_ms)
    (hget : get_qr_state conn now_s (decode_epc epc) = some row)
    (hrow : row.state = TagSt.IN_CART)
    (hcfg : cfg.pass_when_in_cart = false)
    (hcd : now_ms - lookup0 st.last_alarm epc < cfg.alarm_cooldown_ms) :
    make_decision cfg st conn now_ms now_s epc gate_id rssi antenna =
      ⟨.PASS, "alarm_cooldown", decode_epc epc, stampSeen st now_ms epc,
        conn, []⟩ := by
  unfold make_decision
  rw [should_debounce_neg hnd]
  simp only [hget, hrow, is_in_alarm_cooldown, stampSeen]
  simp [hcfg, hcd]

theorem make_decision_in_cart_fires {cfg : DecisionConfig} {st : EngineState}
    {conn : Conn} {now_ms now_s : Int} {epc gate_id : String}
    {rssi antenna : Option Int} {row : TagRow}
    (hnd : ¬ now_ms - lookup0 st.last_seen epc < cfg.debounce_ms)
    (hget : get_qr_state conn now_s (decode_epc epc) = some row)
    (hrow : row.state = TagSt.IN_CART)
    (hcfg : cfg.pass_when_in_cart = false)
    (hcd : ¬ now_ms - lookup0 st.last_alarm epc < cfg.alarm_cooldown_ms) :
    make_decision cfg st conn now_ms now_s epc gate_id rssi antenna =
      ⟨.ALARM, "in_cart_not_allowed", decode_epc epc,
        record_alarm (stampSeen st now_ms epc) now_ms epc,
        insert_alarm_event conn now_s gate_id epc (some (decode_epc epc)) rssi antenna,
        [.audit_append gate_id epc (some (decode_epc epc))]⟩ := by
  unfold make_decision
  rw [should_debounce_neg hnd]
  simp only [hget, hrow, is_in_alarm_cooldown, stampSeen]
  simp [hcfg, hcd]

/-- Shared fact: whenever the debounce check passes, the returned engine
state has `last_seen[epc] = now_ms` and the reason is not `"debounced"`,
in every branch of `make_decision`. -/
theorem make_decision_not_debounced_spec {cfg : DecisionConfig}
    {st : EngineState} {conn : Conn} {now_ms now_s : Int}
    {epc gate_id : String} {rssi antenna : Option Int}
    (hnd : ¬ now_ms - lookup0 st.last_seen epc < cfg.debounce_ms) :
    (make_decision cfg st conn now_ms now_s epc gate_id rssi antenna).st.last_seen =
      setKey st.last_seen epc now_ms ∧
    (make_decision cfg st conn now_ms now_s epc gate_id rssi antenna).reason ≠
      "debounced" := by
  cases hget : get_qr_state conn now_s (decode_epc epc) with
  | none =>
    by_cases hcd : now_ms - lookup0 st.last_alarm epc < cfg.alarm_cooldown_ms
    · rw [make_decision_none_cooldown hnd hget hcd]
      exact ⟨rfl, show ("alarm_cooldown" : String) ≠ "debounced" by decide⟩
    · rw [make_decision_none_fires hnd hget hcd]
      exact ⟨rfl, show ("qr_not_found" : String) ≠ "debounced" by decide⟩
  | some row =>
    cases hrow : row.state with
    | PAID =>
      rw [make_decision_paid hnd hget hrow]
      exact ⟨rfl, show ("paid" : String) ≠ "debounced" by decide⟩
    | IN_CART =>
      by_cases hcfg : cfg.pass_when_in_cart = true
      · rw [make_decision_in_cart_allowed hnd hget hrow hcfg]
        exact ⟨rfl, show ("in_cart_allowed" : String) ≠ "debounced" by decide⟩
      · have hcfg' : cfg.pass_when_in_cart = false := by
          simpa using hcfg
        by_cases hcd : now_ms - lookup0 st.last_alarm epc < cfg.alarm_cooldown_ms
        · rw [make_decision_in_cart_cooldown hnd hget hrow hcfg' hcd]
          exact ⟨rfl, show ("alarm_cooldown" : String) ≠ "debounced" by decide⟩
        · rw [make_decision_in_cart_fires hnd hget hrow hcfg' hcd]
          exact ⟨rfl, show ("in_cart_not_allowed" : String) ≠ "debounced" by decide⟩

/-- C2: a detection within the per-EPC debounce window returns
`(PASS, "debounced", "")` and leaves the engine state and the database
untouched (no decode, no store lookup, no audit append); otherwise
`last_seen[epc]` is set to `now_ms` and the decision continues with a
reason other than `"debounced"`.  Consequently a second detection of the
same EPC within `debounce_ms` of a considered one is itself debounced, so
two detections within the window produce at most one non-debounced
decision. -/
theorem C2_debounce_window
    (cfg : DecisionConfig) (st : EngineState) (conn : Conn)
    (now_ms now_s : Int) (epc gate_id : String) (rssi antenna : Option Int) :
    (now_ms - lookup0 st.last_seen epc < cfg.debounce_ms →
      make_decision cfg st conn now_ms now_s epc gate_id rssi antenna =
        ⟨.PASS, "debounced", "", st, conn, []⟩) ∧
    (¬ now_ms - lookup0 st.last_seen epc < cfg.debounce_ms →
      (make_decision cfg st conn now_ms now_s epc gate_id rssi antenna).st.last_seen =
        setKey st.last_seen epc now_ms ∧
      (make_decision cfg st conn now_ms now_s epc gate_id rssi antenna).reason ≠
        "debounced") ∧
    (∀ now2_ms now2_s : Int,
      ¬ now_ms - lookup0 st.last_seen epc < cfg.debounce_ms →
      now2_ms - now_ms < cfg.debounce_ms →
      make_decision cfg
          (make_decision cfg st conn now_ms now_s epc gate_id rssi antenna).st
          (make_decision cfg st conn now_ms now_s epc gate_id rssi antenna).conn
          now2_ms now2_s epc gate_id rssi antenna =
        ⟨.PASS, "debounced", "",
          (make_decision cfg st conn now_ms now_s epc gate_id rssi antenna).st,
          (make_decision cfg st conn now_ms now_s epc gate_id rssi antenna).conn,
          []⟩) := by
  refine ⟨fun h => make_decision_debounced h,
    fun h => make_decision_not_debounced_spec h,
    fun now2_ms now2_s h1 h2 => ?_⟩
  apply make_decision_debounced
  rw [(make_decision_not_debounced_spec h1).1, lookup0_setKey_self]
  exact h2

theorem C2_debounce_window_witness :
    (make_decision ⟨true, 500, 0⟩ ⟨[("E1", 900)], []⟩ ⟨[], [], 0⟩
        1000 1 "E1" "gate01" none none =
      ⟨.PASS, "debounced", "", ⟨[("E1", 900)], []⟩, ⟨[], [], 0⟩, []⟩) ∧
    ((make_decision ⟨true, 500, 0⟩ ⟨[], []⟩ ⟨[], [], 0⟩
        1000 1 "E1" "gate01" none none).st.last_seen = [("E1", 1000)] ∧
      (make_decision ⟨true, 500, 0⟩ ⟨[], []⟩ ⟨[], [], 0⟩
        1000 1 "E1" "gate01" none none).reason ≠ "debounced") ∧
    (make_decision ⟨true, 500, 0⟩
        (make_decision ⟨true, 500, 0⟩ ⟨[], []⟩ ⟨[], [], 0⟩
          1000 1 "E1" "gate01" none none).st
        (make_decision ⟨true, 500, 0⟩ ⟨[], []⟩ ⟨[], [], 0⟩
          1000 1 "E1" "gate01" none none).conn
        1200 1 "E1" "gate01" none none =
      ⟨.PASS, "debounced", "",
        (make_decision ⟨true, 500, 0⟩ ⟨[], []⟩ ⟨[], [], 0⟩
          1000 1 "E1" "gate01" none none).st,
        (make_decision ⟨true, 500, 0⟩ ⟨[], []⟩ ⟨[], [], 0⟩
          1000 1 "E1" "gate01" none none).conn, []⟩) :=
  ⟨(C2_debounce_window ⟨true, 500, 0⟩ ⟨[("E1", 900)], []⟩ ⟨[], [], 0⟩
      1000 1 "E1" "gate01" none none).1 (by decide),
   (C2_debounce_window ⟨true, 500, 0⟩ ⟨[], []⟩ ⟨[], [], 0⟩
      1000 1 "E1" "gate01" none none).2.1 (by decide),
   (C2_debounce_window ⟨true, 500, 0⟩ ⟨[], []⟩ ⟨[], [], 0⟩
      1000 1 "E1" "gate01" none none).2.2 1200 1 (by decide) (by decide)⟩

/-- C4: a detection whose EPC decodes to a QR with a stored, non-expired
`PAID` row always yields `(PASS, "paid", qr)` — for every configuration,
hence for both values of `decision.pass_when_in_cart`, and for every
cooldown state.  The detection is assumed to pass the debounce check
(a debounced detection returns before the store is consulted, see C2). -/
theorem C4_paid_always_passes
    (cfg : DecisionConfig) (st : EngineState) (conn : Conn)
    (now_ms now_s : Int) (epc gate_id : String) (rssi antenna : Option Int)
    (row : TagRow)
    (hnd : ¬ now_ms - lookup0 st.last_seen epc < cfg.debounce_ms)
    (hget : get_qr_state conn now_s (decode_epc epc) = some row)
    (hrow : row.state = TagSt.PAID) :
    make_decision cfg st conn now_ms now_s epc gate_id rssi antenna =
      ⟨.PASS, "paid", decode_epc epc, stampSeen st now_ms epc, conn, []⟩ :=
  make_decision_paid hnd hget hrow

theorem C4_paid_always_passes_witness :
    (make_decision ⟨true, 0, 7000⟩ ⟨[], []⟩
        ⟨[⟨"ABC", TagSt.PAID, "o1", "p1", "s1", 0, 100⟩], [], 0⟩
        1000 1 "A0B0C0FFFF" "gate01" none none =
      ⟨.PASS, "paid", "ABC", stampSeen ⟨[], []⟩ 1000 "A0B0C0FFFF",
        ⟨[⟨"ABC", TagSt.PAID, "o1", "p1", "s1", 0, 100⟩], [], 0⟩, []⟩) ∧
    (make_decision ⟨false, 0, 7000⟩ ⟨[], []⟩
        ⟨[⟨"ABC", TagSt.PAID, "o1", "p1", "s1", 0, 100⟩], [], 0⟩
        1000 1 "A0B0C0FFFF" "gate01" none none =
      ⟨.PASS, "paid", "ABC", stampSeen ⟨[], []⟩ 1000 "A0B0C0FFFF",
        ⟨[⟨"ABC", TagSt.PAID, "o1", "p1", "s1", 0, 100⟩], [], 0⟩, []⟩) :=
  ⟨C4_paid_always_passes ⟨true, 0, 7000⟩ ⟨[], []⟩
      ⟨[⟨"ABC", TagSt.PAID, "o1", "p1", "s1", 0, 100⟩], [], 0⟩
      1000 1 "A0B0C0FFFF" "gate01" none none
      ⟨"ABC", TagSt.PAID, "o1", "p1", "s1", 0, 100⟩
      (by decide) (by decide) rfl,
   C4_paid_always_passes ⟨false, 0, 7000⟩ ⟨[], []⟩
      ⟨[⟨"ABC", TagSt.PAID, "o1", "p1", "s1", 0, 100⟩], [], 0⟩
      1000 1 "A0B0C0FFFF" "gate01" none none
      ⟨"ABC", TagSt.PAID, "o1", "p1", "s1", 0, 100⟩
      (by decide) (by decide) rfl⟩

/-- A detection is a candidate ALARM when, after decoding, the store has
no live row for the QR (`"qr_not_found"`) or a live `IN_CART` row with
`pass_when_in_cart` disabled (`"in_cart_not_allowed"`). -/
def candidateAlarm (cfg : DecisionConfig) (conn : Conn) (now_s : Int)
    (qr : String) : Prop :=
  get_qr_state conn now_s qr = none ∨
  ∃ row, get_qr_state conn now_s qr = some row ∧
    row.state = TagSt.IN_CART ∧ cfg.pass_when_in_cart = false

theorem make_decision_candidate_cooldown {cfg : DecisionConfig}
    {st : EngineState} {conn : Conn} {now_ms now_s : Int}
    {epc gate_id : String} {rssi antenna : Option Int}
    (hnd : ¬ now_ms - lookup0 st.last_seen epc < cfg.debounce_ms)
    (hca : candidateAlarm cfg conn now_s (decode_epc epc))
    (hcd : now_ms - lookup0 st.last_alarm epc < cfg.alarm_cooldown_ms) :
    make_decision cfg st conn now_ms now_s epc gate_id rssi antenna =
      ⟨.PASS, "alarm_cooldown", decode_epc epc, stampSeen st now_ms epc,
        conn, []⟩ := by
  rcases hca with h | ⟨row, h1, h2, h3⟩
  · exact make_decision_none_cooldown hnd h hcd
  · exact make_decision_in_cart_cooldown hnd h1 h2 h3 hcd

theorem make_decision_candidate_fires {cfg : DecisionConfig}
    {st : EngineState} {conn : Conn} {now_ms now_s : Int}
    {epc gate_id : String} {rssi antenna : Option Int}
    (hnd : ¬ now_ms - lookup0 st.last_seen epc < cfg.debounce_ms)
    (hca : candidateAlarm cfg conn now_s (decode_epc epc))
    (hcd : ¬ now_ms - lookup0 st.last_alarm epc < cfg.alarm_cooldown_ms) :
    ∃ reason, (reason = "qr_not_found" ∨ reason = "in_cart_not_allowed") ∧
      make_decision cfg st conn now_ms now_s epc gate_id rssi antenna =
        ⟨.ALARM, reason, decode_epc epc,
          record_alarm (stampSeen st now_ms epc) now_ms epc,
          insert_alarm_event conn now_s gate_id epc (some (decode_epc epc)) rssi antenna,
          [.audit_append gate_id epc (some (decode_epc epc))]⟩ := by
  rcases hca with h | ⟨row, h1, h2, h3⟩
  · exact ⟨"qr_not_found", Or.inl rfl, make_decision_none_fires hnd h hcd⟩
  · exact ⟨"in_cart_not_allowed", Or.inr rfl,
      make_decision_in_cart_fires hnd h1 h2 h3 hcd⟩

/-! ## Handler-run lemmas -/

theorem handle_run_drop {cfg : DecisionConfig} {st : EngineState}
    {conn : Conn} {now_ms now_s : Int} {payload : JVal} {cid : String}
    (hepc : extract_epc payload = none) :
    handle_tag_detection cfg st conn now_ms now_s payload cid =
      ⟨st, conn, []⟩ := by
  unfold handle_tag_detection
  rw [hepc]

theorem handle_run_suppressed {cfg : DecisionConfig} {st : EngineState}
    {conn : Conn} {now_ms now_s : Int} {payload : JVal} {cid epc : String}
    {d : Decision} {reason qr : String} {st' : EngineState} {conn' : Conn}
    {acts : List Action}
    (hepc : extract_epc payload = some epc)
    (hmd : make_decision cfg st conn now_ms now_s epc
        (extract_gate_id payload cid) (extract_rssi payload)
        (extract_antenna payload) = ⟨d, reason, qr, st', conn', acts⟩)
    (hre : (reason == "debounced" || reason == "alarm_cooldown") = true) :
    handle_tag_detection cfg st conn now_ms now_s payload cid =
      ⟨st', conn', acts⟩ := by
  unfold handle_tag_detection
  rw [hepc]
  simp only [hmd, hre]
  simp

theorem handle_run_alarm {cfg : DecisionConfig} {st : EngineState}
    {conn : Conn} {now_ms now_s : Int} {payload : JVal} {cid epc : String}
    {reason qr : String} {st' : EngineState} {conn' : Conn}
    {acts : List Action}
    (hepc : extract_epc payload = some epc)
    (hmd : make_decision cfg st conn now_ms now_s epc
        (extract_gate_id payload cid) (extract_rssi payload)
        (extract_antenna payload) = ⟨.ALARM, reason, qr, st', conn', acts⟩)
    (hre : (reason == "debounced" || reason == "alarm_cooldown") = false) :
    handle_tag_detection cfg st conn now_ms now_s payload cid =
      ⟨st', conn',
        acts ++ [.broadcast_tag_detected (if qr == "" then epc else qr) .ALARM,
          .broadcast_alarm_triggered (if qr == "" then epc else qr)
            (extract_gate_id payload cid),
          .pulse_publish]⟩ := by
  unfold handle_tag_detection
  rw [hepc]
  simp only [hmd, hre]
  simp

/-- Extraction facts for the minimal flat detection payload carrying only
the `idHex` field. -/
theorem extract_flat_idHex {epc : String} (h : epc ≠ "") (cid : String) :
    extract_epc (JVal.jobj [("idHex", JVal.jstr epc)]) = some epc ∧
    extract_rssi (JVal.jobj [("idHex", JVal.jstr epc)]) = none ∧
    extract_antenna (JVal.jobj [("idHex", JVal.jstr epc)]) = none ∧
    extract_gate_id (JVal.jobj [("idHex", JVal.jstr epc)]) cid = cid := by
  refine ⟨?_, by rfl, by rfl, by rfl⟩
  simp [extract_epc, jget, jgetStr, truthyStr, pyOrStr, List.find?, h]

/-- C1: on a candidate ALARM (no live row, or live IN_CART row with
`pass_when_in_cart` off): within the per-EPC alarm cooldown the call
returns `(PASS, "alarm_cooldown", qr)` touching neither `last_alarm` nor
the database; outside it, it sets `last_alarm[epc] = now_ms`, appends
exactly one AlarmEvent and returns `(ALARM, reason, qr)` with the reason
matching the candidate case.  Hence two would-be alarms for the same EPC
within `alarm_cooldown_ms` (both outside the debounce window) produce
exactly one audit append and one pulse publish across the two handler
runs. -/
theorem C1_alarm_cooldown_gate
    (cfg : DecisionConfig) (st : EngineState) (conn : Conn)
    (now_ms now_s : Int) (epc gate_id : String) (rssi antenna : Option Int)
    (hnd : ¬ now_ms - lookup0 st.last_seen epc < cfg.debounce_ms)
    (hca : candidateAlarm cfg conn now_s (decode_epc epc)) :
    (now_ms - lookup0 st.last_alarm epc < cfg.alarm_cooldown_ms →
      make_decision cfg st conn now_ms now_s epc gate_id rssi antenna =
        ⟨.PASS, "alarm_cooldown", decode_epc epc, stampSeen st now_ms epc,
          conn, []⟩) ∧
    (¬ now_ms - lookup0 st.last_alarm epc < cfg.alarm_cooldown_ms →
      (make_decision cfg st conn now_ms now_s epc gate_id rssi antenna).decision =
        .ALARM ∧
      (make_decision cfg st conn now_ms now_s epc gate_id rssi antenna).qr =
        decode_epc epc ∧
      (make_decision cfg st conn now_ms now_s epc gate_id rssi antenna).st.last_alarm =
        setKey st.last_alarm epc now_ms ∧
      (make_decision cfg st conn now_ms now_s epc gate_id rssi antenna).conn.alarm_event =
        conn.alarm_event ++
          [⟨gate_id, epc, some (decode_epc epc), rssi, antenna, now_s⟩] ∧
      (get_qr_state conn now_s (decode_epc epc) = none →
        (make_decision cfg st conn now_ms now_s epc gate_id rssi antenna).reason =
          "qr_not_found") ∧
      (∀ row, get_qr_state conn now_s (decode_epc epc) = some row →
        (make_decision cfg st conn now_ms now_s epc gate_id rssi antenna).reason =
          "in_cart_not_allowed")) ∧
    (∀ (cid : String) (now2_ms now2_s : Int),
      epc ≠ "" →
      ¬ now_ms - lookup0 st.last_alarm epc < cfg.alarm_cooldown_ms →
      ¬ now2_ms - now_ms < cfg.debounce_ms →
      now2_ms - now_ms < cfg.alarm_cooldown_ms →
      candidateAlarm cfg conn now2_s (decode_epc epc) →
      (handle_tag_detection cfg
          (handle_tag_detection cfg st conn now_ms now_s
            (JVal.jobj [("idHex", JVal.jstr epc)]) cid).st
          (handle_tag_detection cfg st conn now_ms now_s
            (JVal.jobj [("idHex", JVal.jstr epc)]) cid).conn
          now2_ms now2_s (JVal.jobj [("idHex", JVal.jstr epc)]) cid).conn.alarm_event.length =
        conn.alarm_event.length + 1 ∧
      ((handle_tag_detection cfg st conn now_ms now_s
          (JVal.jobj [("idHex", JVal.jstr epc)]) cid).acts ++
        (handle_tag_detection cfg
          (handle_tag_detection cfg st conn now_ms now_s
            (JVal.jobj [("idHex", JVal.jstr epc)]) cid).st
          (handle_tag_detection cfg st conn now_ms now_s
            (JVal.jobj [("idHex", JVal.jstr epc)]) cid).conn
          now2_ms now2_s (JVal.jobj [("idHex", JVal.jstr epc)]) cid).acts).countP
          isPulse = 1) := by
  refine ⟨fun hcd => make_decision_candidate_cooldown hnd hca hcd,
    fun hcd => ?_, fun cid now2_ms now2_s hne hcd1 hdeb2 hcd2 hca2 => ?_⟩
  · rcases hca with h | ⟨row, h1, h2, h3⟩
    · rw [make_decision_none_fires hnd h hcd]
      refine ⟨rfl, rfl, rfl, rfl, fun _ => rfl, fun row' hrow' => ?_⟩
      rw [h] at hrow'
      exact Option.noConfusion hrow'
    · rw [make_decision_in_cart_fires hnd h1 h2 h3 hcd]
      refine ⟨rfl, rfl, rfl, rfl, fun hn => ?_, fun _ _ => rfl⟩
      rw [h1] at hn
      exact Option.noConfusion hn
  · obtain ⟨hx, hrs, hant, hg⟩ := extract_flat_idHex hne cid
    obtain ⟨reason, hr, hmd1⟩ := @make_decision_candidate_fires cfg st conn
      now_ms now_s epc
      (extract_gate_id (JVal.jobj [("idHex", JVal.jstr epc)]) cid)
      (extract_rssi (JVal.jobj [("idHex", JVal.jstr epc)]))
      (extract_antenna (JVal.jobj [("idHex", JVal.jstr epc)]))
      hnd hca hcd1
    have hre : (reason == "debounced" || reason == "alarm_cooldown") = false := by
      rcases hr with rfl | rfl <;> decide
    have h1 := handle_run_alarm hx hmd1 hre
    have hnd2 : ¬ now2_ms -
        lookup0 (record_alarm (stampSeen st now_ms epc) now_ms epc).last_seen epc <
        cfg.debounce_ms := by
      show ¬ now2_ms - lookup0 (setKey st.last_seen epc now_ms) epc < cfg.debounce_ms
      rw [lookup0_setKey_self]
      exact hdeb2
    have hcd2' : now2_ms -
        lookup0 (record_alarm (stampSeen st now_ms epc) now_ms epc).last_alarm epc <
        cfg.alarm_cooldown_ms := by
      show now2_ms - lookup0 (setKey st.last_alarm epc now_ms) epc < cfg.alarm_cooldown_ms
      rw [lookup0_setKey_self]
      exact hcd2
    have hmd2 := @make_decision_candidate_cooldown cfg
      (record_alarm (stampSeen st now_ms epc) now_ms epc)
      (insert_alarm_event conn now_s
        (extract_gate_id (JVal.jobj [("idHex", JVal.jstr epc)]) cid) epc
        (some (decode_epc epc)) (extract_rssi (JVal.jobj [("idHex", JVal.jstr epc)]))
        (extract_antenna (JVal.jobj [("idHex", JVal.jstr epc)])))
      now2_ms now2_s epc
      (extract_gate_id (JVal.jobj [("idHex", JVal.jstr epc)]) cid)
      (extract_rssi (JVal.jobj [("idHex", JVal.jstr epc)]))
      (extract_antenna (JVal.jobj [("idHex", JVal.jstr epc)]))
      hnd2 hca2 hcd2'
    have h2 := handle_run_suppressed hx hmd2 (by decide)
    rw [h1, h2]
    constructor
    · simp [insert_alarm_event]
    · simp [isPulse, List.countP_append, List.countP_cons]

theorem C1_alarm_cooldown_gate_witness :
    (make_decision ⟨true, 0, 5000⟩ ⟨[], [("A0B0C0FFFF", 9000)]⟩ ⟨[], [], 0⟩
        10000 10 "A0B0C0FFFF" "g" none none =
      ⟨.PASS, "alarm_cooldown", "ABC",
        stampSeen ⟨[], [("A0B0C0FFFF", 9000)]⟩ 10000 "A0B0C0FFFF",
        ⟨[], [], 0⟩, []⟩) ∧
    ((make_decision ⟨true, 0, 5000⟩ ⟨[], []⟩ ⟨[], [], 0⟩
        10000 10 "A0B0C0FFFF" "g" none none).decision = .ALARM ∧
      (make_decision ⟨true, 0, 5000⟩ ⟨[], []⟩ ⟨[], [], 0⟩
        10000 10 "A0B0C0FFFF" "g" none none).conn.alarm_event =
        [⟨"g", "A0B0C0FFFF", some "ABC", none, none, 10⟩]) ∧
    ((handle_tag_detection ⟨true, 0, 5000⟩
        (handle_tag_detection ⟨true, 0, 5000⟩ ⟨[], []⟩ ⟨[], [], 0⟩ 10000 10
          (JVal.jobj [("idHex", JVal.jstr "A0B0C0FFFF")]) "g").st
        (handle_tag_detection ⟨true, 0, 5000⟩ ⟨[], []⟩ ⟨[], [], 0⟩ 10000 10
          (JVal.jobj [("idHex", JVal.jstr "A0B0C0FFFF")]) "g").conn
        10200 10 (JVal.jobj [("idHex", JVal.jstr "A0B0C0FFFF")]) "g").conn.alarm_event.length = 1 ∧
      ((handle_tag_detection ⟨true, 0, 5000⟩ ⟨[], []⟩ ⟨[], [], 0⟩ 10000 10
          (JVal.jobj [("idHex", JVal.jstr "A0B0C0FFFF")]) "g").acts ++
        (handle_tag_detection ⟨true, 0, 5000⟩
          (handle_tag_detection ⟨true, 0, 5000⟩ ⟨[], []⟩ ⟨[], [], 0⟩ 10000 10
            (JVal.jobj [("idHex", JVal.jstr "A0B0C0FFFF")]) "g").st
          (handle_tag_detection ⟨true, 0, 5000⟩ ⟨[], []⟩ ⟨[], [], 0⟩ 10000 10
            (JVal.jobj [("idHex", JVal.jstr "A0B0C0FFFF")]) "g").conn
          10200 10 (JVal.jobj [("idHex", JVal.jstr "A0B0C0FFFF")]) "g").acts).countP
          isPulse = 1) := by
  refine ⟨(C1_alarm_cooldown_gate ⟨true, 0, 5000⟩ ⟨[], [("A0B0C0FFFF", 9000)]⟩
      ⟨[], [], 0⟩ 10000 10 "A0B0C0FFFF" "g" none none (by decide)
      (Or.inl rfl)).1 (by decide), ?_, ?_⟩
  · obtain ⟨hd, -, -, hconn, -, -⟩ :=
      (C1_alarm_cooldown_gate ⟨true, 0, 5000⟩ ⟨[], []⟩ ⟨[], [], 0⟩
        10000 10 "A0B0C0FFFF" "g" none none (by decide) (Or.inl rfl)).2.1
        (by decide)
    exact ⟨hd, hconn⟩
  · exact (C1_alarm_cooldown_gate ⟨true, 0, 5000⟩ ⟨[], []⟩ ⟨[], [], 0⟩
      10000 10 "A0B0C0FFFF" "g" none none (by decide) (Or.inl rfl)).2.2
      "g" 10200 10 (by decide) (by decide) (by decide) (by decide) (Or.inl rfl)

/-- An ALARM result always has the alarm shape: the reason is one of the
two candidate reasons, `last_alarm` is stamped, and exactly one audit
append happened inside `make_decision`. -/
theorem make_decision_alarm_shape {cfg : DecisionConfig} {st : EngineState}
    {conn : Conn} {now_ms now_s : Int} {epc gate_id : String}
    {rssi antenna : Option Int}
    (h : (make_decision cfg st conn now_ms now_s epc gate_id rssi antenna).decision =
      .ALARM) :
    ∃ reason, (reason = "qr_not_found" ∨ reason = "in_cart_not_allowed") ∧
      make_decision cfg st conn now_ms now_s epc gate_id rssi antenna =
        ⟨.ALARM, reason, decode_epc epc,
          record_alarm (stampSeen st now_ms epc) now_ms epc,
          insert_alarm_event conn now_s gate_id epc (some (decode_epc epc)) rssi antenna,
          [.audit_append gate_id epc (some (decode_epc epc))]⟩ := by
  by_cases hnd : now_ms - lookup0 st.last_seen epc < cfg.debounce_ms
  · rw [make_decision_debounced hnd] at h
    simp at h
  · cases hget : get_qr_state conn now_s (decode_epc epc) with
    | none =>
      by_cases hcd : now_ms - lookup0 st.last_alarm epc < cfg.alarm_cooldown_ms
      · rw [make_decision_none_cooldown hnd hget hcd] at h
        simp at h
      · exact ⟨"qr_not_found", Or.inl rfl, make_decision_none_fires hnd hget hcd⟩
    | some row =>
      cases hrow : row.state with
      | PAID =>
        rw [make_decision_paid hnd hget hrow] at h
        simp at h
      | IN_CART =>
        by_cases hcfg : cfg.pass_when_in_cart = true
        · rw [make_decision_in_cart_allowed hnd hget hrow hcfg] at h
          simp at h
        · have hcfg' : cfg.pass_when_in_cart = false := by simpa using hcfg
          by_cases hcd : now_ms - lookup0 st.last_alarm epc < cfg.alarm_cooldown_ms
          · rw [make_decision_in_cart_cooldown hnd hget hrow hcfg' hcd] at h
            simp at h
          · exact ⟨"in_cart_not_allowed", Or.inr rfl,
              make_decision_in_cart_fires hnd hget hrow hcfg' hcd⟩

/-- C7 counterexample: a concrete detection that results in ALARM, on
which the pulse publish does NOT happen before the event-bus broadcasts —
`_handle_tag_detection` broadcasts `TAG_DETECTED` and `ALARM_TRIGGERED`
first and calls `trigger_alarm` (the pulse publish) last, so the claimed
pulse-before-broadcast order is false. -/
theorem C7_pulse_before_broadcast_counterexample :
    (make_decision ⟨true, 0, 0⟩ ⟨[], []⟩ ⟨[], [], 0⟩ 10000 10 "A0B0C0" "g"
        none none).decision = .ALARM ∧
    eventsBefore
      (handle_tag_detection ⟨true, 0, 0⟩ ⟨[], []⟩ ⟨[], [], 0⟩ 10000 10
        (JVal.jobj [("idHex", JVal.jstr "A0B0C0")]) "g").acts
      isPulse isBroadcast = false := by decide

/-- C7 (amended): for every detection whose decision is ALARM, the audit
append happens before both event-bus broadcasts, and the broadcasts happen
before the pulse publish (the pulse is last, not between append and
broadcast). -/
theorem C7_alarm_effect_order
    (cfg : DecisionConfig) (st : EngineState) (conn : Conn)
    (now_ms now_s : Int) (payload : JVal) (cid epc : String)
    (hepc : extract_epc payload = some epc)
    (halarm : (make_decision cfg st conn now_ms now_s epc
        (extract_gate_id payload cid) (extract_rssi payload)
        (extract_antenna payload)).decision = .ALARM) :
    (handle_tag_detection cfg st conn now_ms now_s payload cid).acts.countP
      isAudit = 1 ∧
    (handle_tag_detection cfg st conn now_ms now_s payload cid).acts.countP
      isPulse = 1 ∧
    eventsBefore (handle_tag_detection cfg st conn now_ms now_s payload cid).acts
      isAudit isBroadcast = true ∧
    eventsBefore (handle_tag_detection cfg st conn now_ms now_s payload cid).acts
      isBroadcast isPulse = true ∧
    eventsBefore (handle_tag_detection cfg st conn now_ms now_s payload cid).acts
      isAudit isPulse = true := by
  obtain ⟨reason, hr, hmd⟩ := make_decision_alarm_shape halarm
  have hre : (reason == "debounced" || reason == "alarm_cooldown") = false := by
    rcases hr with rfl | rfl <;> decide
  rw [handle_run_alarm hepc hmd hre]
  refine ⟨?_, ?_, ?_, ?_, ?_⟩ <;>
    simp [eventsBefore, List.enum, List.enumFrom, isAudit, isPulse, isBroadcast,
      List.countP_append, List.countP_cons]

theorem C7_alarm_effect_order_witness :
    (handle_tag_detection ⟨true, 0, 0⟩ ⟨[], []⟩ ⟨[], [], 0⟩ 10000 10
        (JVal.jobj [("idHex", JVal.jstr "E7")]) "g").acts.countP isAudit = 1 ∧
    (handle_tag_detection ⟨true, 0, 0⟩ ⟨[], []⟩ ⟨[], [], 0⟩ 10000 10
        (JVal.jobj [("idHex", JVal.jstr "E7")]) "g").acts.countP isPulse = 1 ∧
    eventsBefore (handle_tag_detection ⟨true, 0, 0⟩ ⟨[], []⟩ ⟨[], [], 0⟩ 10000 10
        (JVal.jobj [("idHex", JVal.jstr "E7")]) "g").acts isAudit isBroadcast = true ∧
    eventsBefore (handle_tag_detection ⟨true, 0, 0⟩ ⟨[], []⟩ ⟨[], [], 0⟩ 10000 10
        (JVal.jobj [("idHex", JVal.jstr "E7")]) "g").acts isBroadcast isPulse = true ∧
    eventsBefore (handle_tag_detection ⟨true, 0, 0⟩ ⟨[], []⟩ ⟨[], [], 0⟩ 10000 10
        (JVal.jobj [("idHex", JVal.jstr "E7")]) "g").acts isAudit isPulse = true :=
  C7_alarm_effect_order ⟨true, 0, 0⟩ ⟨[], []⟩ ⟨[], [], 0⟩ 10000 10
    (JVal.jobj [("idHex", JVal.jstr "E7")]) "g" "E7" (by decide) (by decide)

/-- C8: the handler does not process `tags`-array payloads at all: a
message whose EPCs sit in a `"tags"` array under key `"epc"` is dropped
whole (no decision, no state change, no effects), even though a direct
decision on the first element's EPC would have fired an alarm and
appended an audit row.  The handler only reads `idHex`/`tag_id` from the
flat form; the repository's own tests (`TestMqttTagDetection`) expect
per-element processing via a `_process_single_tag` method that the code
does not define. -/
theorem C8_tags_array_dropped :
    handle_tag_detection ⟨true, 0, 0⟩ ⟨[], []⟩ ⟨[], [], 0⟩ 10000 10
      (JVal.jobj [("tags", JVal.jarr
          [JVal.jobj [("epc", JVal.jstr "EPC001"), ("rssi", JVal.jnum (-45))],
           JVal.jobj [("epc", JVal.jstr "EPC002"), ("rssi", JVal.jnum (-50))]]),
        ("id", JVal.jstr "reader-01")]) "gate01" =
      ⟨⟨[], []⟩, ⟨[], [], 0⟩, []⟩ ∧
    (make_decision ⟨true, 0, 0⟩ ⟨[], []⟩ ⟨[], [], 0⟩ 10000 10 "EPC001"
        "reader-01" (some (-45)) none).conn.alarm_event.length = 1 := by
  constructor
  · rw [handle_run_drop (by rfl)]
  · decide

/-! ## Store lemmas and claims -/

/-- After an unconditional (PAID) upsert of `nr`, the expiry-aware lookup
for `nr.qr_code` finds `nr` whenever `nr` is not expired, regardless of
what the table held before. -/
theorem find_upsert_true (nr : TagRow) :
    ∀ (rows : List TagRow) (now' : Int), now' ≤ nr.expires_at →
      (upsertRow rows nr (fun _ => true)).1.find?
        (fun r => r.qr_code == nr.qr_code && decide (now' ≤ r.expires_at)) =
        some nr
  | [], now', h => by simp [upsertRow, List.find?, h]
  | r :: rest, now', h => by
    simp only [upsertRow]
    by_cases hk : r.qr_code == nr.qr_code
    · simp [hk, List.find?, h]
    · simp only [hk, Bool.false_eq_true, if_false, List.find?]
      simp only [hk, Bool.false_and]
      exact find_upsert_true nr rest now' h

/-- C5: writes in either order leave a PAID row.  A `PAID` upsert after an
`IN_CART` upsert of the same qr leaves the stored row `PAID` (freshly
stamped); an `IN_CART` upsert after a non-expired `PAID` upsert changes
nothing and reports `upserted = 0, ignored_paid = 1`, with the stored row
still the PAID one. -/
theorem C5_paid_wins
    (conn : Conn) (qr o1 p1 s1 o2 p2 s2 : String) (now1 ttl1 now2 ttl2 : Int) :
    (0 ≤ ttl2 →
      get_qr_state (upsert_qr_codes_paid
          (upsert_qr_codes_in_cart conn [qr] o1 p1 s1 now1 ttl1).1
          [qr] o2 p2 s2 now2 ttl2).1 now2 qr =
        some ⟨qr, TagSt.PAID, o2, p2, s2, now2, now2 + ttl2⟩) ∧
    (now2 ≤ now1 + ttl1 →
      upsert_qr_codes_in_cart (upsert_qr_codes_paid conn [qr] o1 p1 s1 now1 ttl1).1
          [qr] o2 p2 s2 now2 ttl2 =
        ((upsert_qr_codes_paid conn [qr] o1 p1 s1 now1 ttl1).1, 0, 1) ∧
      get_qr_state (upsert_qr_codes_paid conn [qr] o1 p1 s1 now1 ttl1).1 now2 qr =
        some ⟨qr, TagSt.PAID, o1, p1, s1, now1, now1 + ttl1⟩) := by
  constructor
  · intro h2
    exact find_upsert_true ⟨qr, TagSt.PAID, o2, p2, s2, now2, now2 + ttl2⟩
      (upsert_qr_codes_in_cart conn [qr] o1 p1 s1 now1 ttl1).1.tag_state now2
      (show now2 ≤ now2 + ttl2 by omega)
  · intro h2
    have hget : get_qr_state (upsert_qr_codes_paid conn [qr] o1 p1 s1 now1 ttl1).1
        now2 qr = some ⟨qr, TagSt.PAID, o1, p1, s1, now1, now1 + ttl1⟩ :=
      find_upsert_true ⟨qr, TagSt.PAID, o1, p1, s1, now1, now1 + ttl1⟩
        conn.tag_state now2 h2
    refine ⟨?_, hget⟩
    show upsertInCartGo o2 p2 s2 now2 (now2 + ttl2) _ [qr] 0 0 = _
    simp only [upsertInCartGo, hget]
    rfl

theorem C5_paid_wins_witness :
    (get_qr_state (upsert_qr_codes_paid
        (upsert_qr_codes_in_cart ⟨[], [], 0⟩ ["X"] "O1" "P1" "S1" 100 3600).1
        ["X"] "O2" "P2" "S2" 110 86400).1 110 "X" =
      some ⟨"X", TagSt.PAID, "O2", "P2", "S2", 110, 110 + 86400⟩) ∧
    (upsert_qr_codes_in_cart (upsert_qr_codes_paid ⟨[], [], 0⟩ ["X"] "O1" "P1" "S1" 100 3600).1
        ["X"] "O2" "P2" "S2" 110 86400 =
      ((upsert_qr_codes_paid ⟨[], [], 0⟩ ["X"] "O1" "P1" "S1" 100 3600).1, 0, 1) ∧
      get_qr_state (upsert_qr_codes_paid ⟨[], [], 0⟩ ["X"] "O1" "P1" "S1" 100 3600).1
          110 "X" =
        some ⟨"X", TagSt.PAID, "O1", "P1", "S1", 100, 100 + 3600⟩) :=
  ⟨(C5_paid_wins ⟨[], [], 0⟩ "X" "O1" "P1" "S1" "O2" "P2" "S2" 100 3600 110 86400).1
      (by decide),
   (C5_paid_wins ⟨[], [], 0⟩ "X" "O1" "P1" "S1" "O2" "P2" "S2" 100 3600 110 86400).2
      (by decide)⟩

/-- C3: a physically present but expired PAID row DOES prevent the
IN_CART write.  Store an expired PAID row for "X" (expires_at 5 < now 10,
so `get_qr_state` already reports it absent), then register "X" in cart:
the table is left completely unchanged — the SQL `ON CONFLICT ... WHERE
state != 'PAID'` guard looks only at the stored state, not at expiry —
while the call still reports `upserted = 1, ignored_paid = 0`.  The claim
(and §3's invariant that an expired row never influences a decision)
requires the row to become `("X", IN_CART, "o1", "p1", "s1", 10, 110)`. -/
theorem C3_expired_paid_blocks_in_cart :
    get_qr_state ⟨[⟨"X", TagSt.PAID, "o0", "p0", "s0", 0, 5⟩], [], 0⟩ 10 "X" =
      none ∧
    upsert_qr_codes_in_cart ⟨[⟨"X", TagSt.PAID, "o0", "p0", "s0", 0, 5⟩], [], 0⟩
        ["X"] "o1" "p1" "s1" 10 100 =
      (⟨[⟨"X", TagSt.PAID, "o0", "p0", "s0", 0, 5⟩], [], 0⟩, 1, 0) := by decide

/-- C6: `remove_qr_codes` and `cleanup_expired_tags` return the
connection-lifetime `total_changes` counter, not the number of rows the
call deleted.  After a single prior PAID upsert (1 change), removing an
absent qr deletes no row yet returns 1, and a cleanup that deletes exactly
one expired row returns 2. -/
theorem C6_returns_accumulated_total_changes :
    (remove_qr_codes (upsert_qr_codes_paid ⟨[], [], 0⟩ ["A"] "o" "p" "s" 0 100).1
        ["B"] none).2 = 1 ∧
    (remove_qr_codes (upsert_qr_codes_paid ⟨[], [], 0⟩ ["A"] "o" "p" "s" 0 100).1
        ["B"] none).1.tag_state.length = 1 ∧
    (cleanup_expired_tags (upsert_qr_codes_paid ⟨[], [], 0⟩ ["A"] "o" "p" "s" 0 100).1
        200).2 = 2 ∧
    (cleanup_expired_tags (upsert_qr_codes_paid ⟨[], [], 0⟩ ["A"] "o" "p" "s" 0 100).1
        200).1.tag_state.length = 0 := by decide

/-- Counting helper for C10: the IN_CART loop adds exactly one to one of
the two counters per list element, whatever the store contents. -/
theorem upsertInCartGo_counts (o p s : String) (now exp : Int) :
    ∀ (qrs : List String) (conn : Conn) (ups ign : Nat),
      (upsertInCartGo o p s now exp conn qrs ups ign).2.1 +
        (upsertInCartGo o p s now exp conn qrs ups ign).2.2 =
        ups + ign + qrs.length
  | [], conn, ups, ign => by simp [upsertInCartGo]
  | qr :: rest, conn, ups, ign => by
    simp only [upsertInCartGo]
    cases hm : get_qr_state conn now qr with
    | none =>
      simp only [hm]
      rw [if_neg (by decide)]
      rw [upsertInCartGo_counts o p s now exp rest]
      simp only [List.length_cons]
      omega
    | some row =>
      cases hrow : (row.state == TagSt.PAID) with
      | true =>
        simp only [hm, hrow]
        rw [if_pos trivial]
        rw [upsertInCartGo_counts o p s now exp rest]
        simp only [List.length_cons]
        omega
      | false =>
        simp only [hm, hrow]
        rw [if_neg (by decide)]
        rw [upsertInCartGo_counts o p s now exp rest]
        simp only [List.length_cons]
        omega

/-- C10: the counts returned by the register operations are determined by
the input list alone: `upsert_in_cart` returns `upserted + ignored_paid`
equal to the list length for every store content (`upserted` counts loop
iterations that executed the guarded statement, not rows actually
written), and `upsert_paid` returns exactly the list length. -/
theorem C10_register_counts (conn : Conn) (qrs : List String)
    (o p s : String) (now ttl : Int) :
    (upsert_qr_codes_in_cart conn qrs o p s now ttl).2.1 +
      (upsert_qr_codes_in_cart conn qrs o p s now ttl).2.2 = qrs.length ∧
    (upsert_qr_codes_paid conn qrs o p s now ttl).2 = qrs.length := by
  refine ⟨?_, rfl⟩
  have h := upsertInCartGo_counts o p s now (now + ttl) qrs conn 0 0
  simpa [upsert_qr_codes_in_cart] using h

/-- C9 counterexample: decoding is not idempotent.  `decode("F0F0")`
yields `"FF"` (non-trailing `F0` pairs are letters), but re-decoding
`"FF"` strips the result as padding and yields `""`. -/
theorem C9_not_idempotent_counterexample :
    decode_epc (decode_epc "F0F0") ≠ decode_epc "F0F0" := by decide

/-- The scan never lengthens its input: each step consumes one or two
characters and emits exactly one. -/
theorem scanPairs_length_le : ∀ l : List Char, (scanPairs l).length ≤ l.length
  | [] => Nat.le_refl _
  | [_] => Nat.le_refl _
  | c1 :: c2 :: rest => by
    simp only [scanPairs]
    cases hk : epcToLetter c1 c2 with
    | some L =>
      simp only [List.length_cons]
      have := scanPairs_length_le rest
      omega
    | none =>
      simp only [List.length_cons]
      have := scanPairs_length_le (c2 :: rest)
      simp only [List.length_cons] at this
      omega

/-- A length-preserving scan consumed no pair: it returns its input
unchanged and the input contains no adjacent table key. -/
theorem scanPairs_eq_self_of_length :
    ∀ l : List Char, (scanPairs l).length = l.length →
      scanPairs l = l ∧ noKeyPair l = true
  | [], _ => ⟨rfl, rfl⟩
  | [_], _ => ⟨rfl, rfl⟩
  | c1 :: c2 :: rest, h => by
    cases hk : epcToLetter c1 c2 with
    | some L =>
      exfalso
      simp only [scanPairs, hk, List.length_cons] at h
      have := scanPairs_length_le rest
      omega
    | none =>
      simp only [scanPairs, hk, List.length_cons] at h
      have h' : (scanPairs (c2 :: rest)).length = (c2 :: rest).length := by
        simp only [List.length_cons]
        omega
      obtain ⟨he, hn⟩ := scanPairs_eq_self_of_length (c2 :: rest) h'
      refine ⟨?_, ?_⟩
      · simp only [scanPairs, hk, he]
      · simp only [noKeyPair, hk, hn, Option.isNone_none, Bool.and_self]

/-- A length-preserving `dropWhile` dropped nothing. -/
theorem dropWhile_eq_self_of_length (p : Char → Bool) :
    ∀ l : List Char, (l.dropWhile p).length = l.length → l.dropWhile p = l
  | [], _ => rfl
  | x :: xs, h => by
    cases hp : p x with
    | true =>
      exfalso
      simp only [List.dropWhile, hp] at h
      have hle : (xs.dropWhile p).length ≤ xs.length :=
        List.Sublist.length_le (List.IsSuffix.sublist (List.dropWhile_suffix p))
      simp only [List.length_cons] at h
      omega
    | false => simp only [List.dropWhile, hp]

/-- Stripping the trailing `F` run never lengthens the list. -/
theorem stripTrailingF_length_le (l : List Char) :
    (stripTrailingF l).length ≤ l.length := by
  have h1 : (l.reverse.dropWhile (fun c => c = 'F')).length ≤ l.reverse.length :=
    List.Sublist.length_le (List.IsSuffix.sublist (List.dropWhile_suffix _))
  unfold stripTrailingF
  simp only [List.length_reverse] at h1 ⊢
  exact h1

/-- A length-preserving strip left the list unchanged. -/
theorem stripTrailingF_eq_self_of_length (l : List Char)
    (h : (stripTrailingF l).length = l.length) : stripTrailingF l = l := by
  unfold stripTrailingF at h ⊢
  simp only [List.length_reverse] at h
  rw [dropWhile_eq_self_of_length _ l.reverse (by simpa using h),
    List.reverse_reverse]

/-- Every fixed point of `decode_epc` is canonical: ASCII-uppercase, with
no trailing `F` and no adjacent table pair.  The normalisation and the
scan can only shorten the string, so a fixed point passes through both
untouched. -/
theorem decode_epc_fixed_point_canonical (s : String)
    (h : decode_epc s = s) :
    s.data.map Char.toUpper = s.data ∧
    stripTrailingF s.data = s.data ∧
    noKeyPair s.data = true := by
  have hdata : scanPairs (stripTrailingF (s.data.map Char.toUpper)) = s.data :=
    congrArg String.data h
  have l1 := scanPairs_length_le (stripTrailingF (s.data.map Char.toUpper))
  have l2 := stripTrailingF_length_le (s.data.map Char.toUpper)
  have l3 : (s.data.map Char.toUpper).length = s.data.length :=
    List.length_map _ _
  have l0 : (scanPairs (stripTrailingF (s.data.map Char.toUpper))).length =
      s.data.length := by rw [hdata]
  have hstrip : stripTrailingF (s.data.map Char.toUpper) =
      s.data.map Char.toUpper :=
    stripTrailingF_eq_self_of_length _ (by omega)
  rw [hstrip] at hdata l0
  obtain ⟨hscan, hnokey⟩ :=
    scanPairs_eq_self_of_length (s.data.map Char.toUpper) (by omega)
  have hupper : s.data.map Char.toUpper = s.data := by
    rw [hscan] at hdata
    exact hdata
  rw [hupper] at hstrip hnokey
  exact ⟨hupper, hstrip, hnokey⟩

/-- C9 (amended): decoding is deterministic (a pure function), and it is
idempotent exactly when the decoded output is canonical: ASCII-uppercase,
with no trailing `F` padding and no adjacent hex pair from the table.
Whenever any of the three conditions fails, re-decoding changes the
string (see the counterexample `"F0F0"`, whose output `"FF"` re-decodes
to `""`). -/
theorem C9_decode_idempotent_iff_canonical (epc : String) :
    decode_epc (decode_epc epc) = decode_epc epc ↔
      ((decode_epc epc).data.map Char.toUpper = (decode_epc epc).data ∧
        stripTrailingF (decode_epc epc).data = (decode_epc epc).data ∧
        noKeyPair (decode_epc epc).data = true) :=
  ⟨fun h => decode_epc_fixed_point_canonical (decode_epc epc) h,
   fun h => decode_epc_fixed (decode_epc epc) h.1 h.2.1 h.2.2⟩

theorem C9_decode_idempotent_iff_canonical_witness :
    (decode_epc (decode_epc "B3E0A3B3123") = decode_epc "B3E0A3B3123") ∧
    ¬ decode_epc (decode_epc "F0F0") = decode_epc "F0F0" :=
  ⟨(C9_decode_idempotent_iff_canonical "B3E0A3B3123").mpr
      ⟨by decide, by decide, by decide⟩,
   fun h => absurd ((C9_decode_idempotent_iff_canonical "F0F0").mp h)
      (by decide)⟩

end EdgeService
